import Mathlib

/-!
Verification development for the sewing-pattern photo cataloger's OCR field
extractor (`src/utils/ocrProcessor.ts`) and the add-pattern form pre-fill
consumer (`src/components/AddPatternDialog.tsx`).

The extractor is a pure, deterministic function built from JavaScript regular
expressions.  We embed it shallowly: a small regular-expression language `RE`
covering exactly the constructs the source uses (character classes, greedy and
lazy counted repetition of a class, catenation, prioritized alternation, the
word boundary `\b`, and the multiline anchor `^`), with a backtracking matcher
whose priority order coincides with the JavaScript engine's on these patterns
(leftmost match, alternatives in written order, greedy repetitions longest
first, lazy ones shortest first).

Modelling conventions:
* strings are Lean `String`s (lists of unicode scalars); the JS code only
  distinguishes ASCII in its patterns, so UTF-16 length and case mapping
  subtleties do not affect any claim, and `String.length`, `Char.toLower`,
  `Char.toUpper` stand in for their JS counterparts;
* JS `number` arithmetic on the confidence score is embedded in `ℚ`; every
  literal involved (0.3, 0.2, 0.15, 0.1, 0.05, 1.0) and sum of them is exact;
* `undefined`-or-string values are `Option String`; JS truthiness of such a
  value (`if (x)`) is `truthyOpt` (present and non-empty).
-/

namespace SewingOCR

/-- JS `\s` (whitespace) character set, also used by `String.prototype.trim`
and by `split(/\s+/)`. -/
def isJsSpace (c : Char) : Bool :=
  c == ' ' || c == '\t' || c == '\n' || c == '\x0b' || c == '\x0c' || c == '\r' ||
  c == ' ' || c == ' ' || (' ' ≤ c && c ≤ ' ') ||
  c == ' ' || c == ' ' || c == ' ' || c == ' ' ||
  c == '　' || c == '﻿'

/-- JS `\w`: ASCII letters, digits and underscore. -/
def isWordCh (c : Char) : Bool :=
  ('A' ≤ c && c ≤ 'Z') || ('a' ≤ c && c ≤ 'z') || ('0' ≤ c && c ≤ '9') || c == '_'

/-- JS line terminators (what `.` does not match, and where multiline `^`
matches after). -/
def isLineTerm (c : Char) : Bool :=
  c == '\n' || c == '\r' || c == ' ' || c == ' '

/-- JS `.` without the `s` flag: any character except a line terminator. -/
def isDot (c : Char) : Bool := !(isLineTerm c)

/-- ASCII digit. -/
def isDigitCh (c : Char) : Bool := '0' ≤ c && c ≤ '9'

/-- Class `[A-Z]` without the `i` flag. -/
def isUpperAZ (c : Char) : Bool := 'A' ≤ c && c ≤ 'Z'

/-- Class `[A-Z]` under the `i` flag: any ASCII letter. -/
def isLetterCI (c : Char) : Bool := ('A' ≤ c && c ≤ 'Z') || ('a' ≤ c && c ≤ 'z')

/-- Case-insensitive comparison with a fixed character (ASCII case folding,
matching the JS `i` flag on the source's ASCII patterns). -/
def ciEq (c x : Char) : Bool := x.toLower == c.toLower

/-- Regular expressions, restricted to the constructs appearing in
`ocrProcessor.ts`: every repetition body there is a single character class, and
every alternation is between literal words. -/
inductive RE where
  | eps : RE
  | cls (p : Char → Bool) : RE
  | cat (a b : RE) : RE
  | alt (a b : RE) : RE
  | rep (greedy : Bool) (p : Char → Bool) (lo : Nat) (hi : Option Nat) : RE
  | wb : RE
  | bol : RE

/-- Is the optional character a word character (`none` = outside the string)? -/
def optIsWord : Option Char → Bool
  | none => false
  | some c => isWordCh c

/-- Assertion `\b` holds between `prev` and the head of `rest`. -/
def boundaryAt (prev : Option Char) (rest : List Char) : Bool :=
  optIsWord prev != optIsWord rest.head?

/-- Multiline `^` holds right after `prev`. -/
def lineStartAt : Option Char → Bool
  | none => true
  | some c => isLineTerm c

/-- States reachable by consuming 0,1,… characters of class `p` (at most `hi`),
in increasing-consumption order.  Each state is (last consumed char, suffix). -/
def repStates (p : Char → Bool) : Option Char → List Char → Nat →
    List (Option Char × List Char)
  | prev, [], _ => [(prev, [])]
  | prev, c :: rest, 0 => [(prev, c :: rest)]
  | prev, c :: rest, hi + 1 =>
    (prev, c :: rest) :: (if p c then repStates p (some c) rest hi else [])

/-- All ways `r` can match a prefix of `rest` (given the character `prev`
immediately before it), as (last consumed char, remaining suffix) pairs in
backtracking priority order. -/
def matchEnds : RE → Option Char → List Char → List (Option Char × List Char)
  | .eps, prev, rest => [(prev, rest)]
  | .cls _, _, [] => []
  | .cls p, _, c :: rest => if p c then [(some c, rest)] else []
  | .cat a b, prev, rest =>
    (matchEnds a prev rest).flatMap (fun pr => matchEnds b pr.1 pr.2)
  | .alt a b, prev, rest => matchEnds a prev rest ++ matchEnds b prev rest
  | .rep greedy p lo hi, prev, rest =>
    let hiN := match hi with | some h => h | none => rest.length
    let sts := (repStates p prev rest hiN).drop lo
    if greedy then sts.reverse else sts
  | .wb, prev, rest => if boundaryAt prev rest then [(prev, rest)] else []
  | .bol, prev, rest => if lineStartAt prev then [(prev, rest)] else []

/-- Scan for the leftmost match of `r`.  Returns
(text before the match, matched text, last char of the match region, suffix
after the match), or `none`.  `accRev` accumulates the scanned-over text. -/
def searchGo (r : RE) : Option Char → List Char → List Char →
    Option (List Char × List Char × Option Char × List Char)
  | prev, accRev, [] =>
    ((matchEnds r prev []).head?).map (fun pr => (accRev.reverse, [], pr.1, pr.2))
  | prev, accRev, c :: rest =>
    match (matchEnds r prev (c :: rest)).head? with
    | some pr =>
      some (accRev.reverse,
            (c :: rest).take ((c :: rest).length - pr.2.length), pr.1, pr.2)
    | none => searchGo r (some c) (c :: accRev) rest

/-- Leftmost match of `r` in `s`. -/
def reSearch (r : RE) (s : List Char) :
    Option (List Char × List Char × Option Char × List Char) :=
  searchGo r none [] s

/-- JS `text.match(re)[0]` for a global regex: the text of the first match. -/
def firstMatchStr (r : RE) (s : String) : Option String :=
  (reSearch r s.data).map (fun q => String.mk q.2.1)

/-- JS `re.test(text)` for a freshly constructed regex. -/
def reTest (r : RE) (s : String) : Bool := (reSearch r s.data).isSome

/-- One pass of JS `String.prototype.replace` with a global regex and a plain
replacement string: repeatedly find the leftmost match and splice in `repl`
(an empty match keeps the current character and advances one position). -/
def replaceGo (r : RE) (repl : List Char) : Nat → Option Char → List Char → List Char
  | 0, _, rest => rest
  | fuel + 1, prev, rest =>
    match searchGo r prev [] rest with
    | none => rest
    | some (pre, m, lastP, after) =>
      match m with
      | [] =>
        pre ++ repl ++
          (match after with
           | [] => []
           | c :: after2 => c :: replaceGo r repl fuel (some c) after2)
      | _ :: _ => pre ++ repl ++ replaceGo r repl fuel lastP after

/-- JS `s.replace(re, repl)` with a global regex. -/
def reReplaceAll (r : RE) (repl : String) (s : String) : String :=
  String.mk (replaceGo r repl.data (s.data.length + 1) none s.data)

/-- JS `s.toLowerCase()` (ASCII case folding, which covers every character the
source's patterns and catalogs distinguish). -/
def jsToLower (s : String) : String := String.mk (s.data.map Char.toLower)

/-- JS `s.toUpperCase()` (ASCII case folding). -/
def jsToUpper (s : String) : String := String.mk (s.data.map Char.toUpper)

/-- JS `String.prototype.trim`. -/
def jsTrim (s : String) : String :=
  String.mk (((s.data.dropWhile isJsSpace).reverse.dropWhile isJsSpace).reverse)

/-- Worker for `jsSplitWs`; the flag records whether we are inside a
separator run. -/
def splitWsGo : Bool → List Char → List Char → List String
  | false, acc, [] => [String.mk acc.reverse]
  | true, _, [] => [""]
  | false, acc, c :: rest =>
    if isJsSpace c then String.mk acc.reverse :: splitWsGo true [] rest
    else splitWsGo false (c :: acc) rest
  | true, _, c :: rest =>
    if isJsSpace c then splitWsGo true [] rest
    else splitWsGo false [c] rest

/-- JS `s.split(/\s+/)` (keeps the empty first/last fields JS produces when the
string starts or ends with whitespace; `""` splits to `[""]`). -/
def jsSplitWs (s : String) : List String := splitWsGo false [] s.data

/-- Substring test on char lists (used for JS `String.prototype.includes`). -/
def listStartsWith : List Char → List Char → Bool
  | _, [] => true
  | [], _ :: _ => false
  | a :: as, b :: bs => a == b && listStartsWith as bs

/-- Worker for `strIncludes`. -/
def listContainsSub : List Char → List Char → Bool
  | [], needle => needle.isEmpty
  | h :: t, needle => listStartsWith (h :: t) needle || listContainsSub t needle

/-- JS `s.includes(sub)`. -/
def strIncludes (s sub : String) : Bool := listContainsSub s.data sub.data

/- Convenience builders for the concrete source regexes. -/

/-- A literal character, case-sensitive. -/
def chrCS (c : Char) : RE := .cls (fun x => x == c)

/-- A literal character under the `i` flag. -/
def chrCI (c : Char) : RE := .cls (ciEq c)

/-- A literal string (each char matched with or without the `i` flag). -/
def strRE (ci : Bool) (s : String) : RE :=
  (s.data.map (fun c => if ci then chrCI c else chrCS c)).foldr .cat .eps

/-- Catenation of a list of regexes. -/
def catl (rs : List RE) : RE := rs.foldr .cat .eps

/-- A regex that never matches (empty alternation). -/
def failRE : RE := .cls (fun _ => false)

/-- Prioritized alternation of a list of regexes (first listed tried first). -/
def altl (rs : List RE) : RE := rs.foldr .alt failRE

/-- Repetition `\s*`. -/
def wsStar : RE := .rep true isJsSpace 0 none

/-- Repetition `\s+`. -/
def wsPlus : RE := .rep true isJsSpace 1 none

/-- An optional literal character under the `i` flag (`#?`, `:?`, `[s]?`…). -/
def optChCI (c : Char) : RE := .rep true (ciEq c) 0 (some 1)

/-- An optional literal character, case-sensitive (`\.?`). -/
def optChCS (c : Char) : RE := .rep true (fun x => x == c) 0 (some 1)

/-!  Reference data of `ocrProcessor.ts`. -/

/-- Catalog `PATTERN_COMPANIES` — common sewing pattern companies. -/
def PATTERN_COMPANIES : List String :=
  ["Simplicity", "McCall\x27s", "Butterick", "Vogue", "Burda", "New Look",
   "Kwik Sew", "Patterns for Pirates", "Closet Core", "Cashmerette",
   "True Bias", "Grainline Studio", "Deer & Doe", "Named Clothing",
   "Papercut Patterns", "Sew House Seven", "Helen\x27s Closet", "Mood Fabrics"]

/-- Catalog `FABRIC_TYPES` — common fabric types. -/
def FABRIC_TYPES : List String :=
  ["Cotton", "Linen", "Silk", "Wool", "Polyester", "Rayon", "Viscose",
   "Jersey", "Knit", "Woven", "Stretch", "Denim", "Chiffon", "Satin",
   "Velvet", "Fleece", "Canvas", "Twill", "Crepe", "Georgette"]

/-- Class `[-–]`: hyphen or en dash. -/
def isDashCh (c : Char) : Bool := c == '-' || c == '–'

/-- Class `[XS|S|M|L|XL|XXL|\d\-\s]` under `i`: the (malformed, character-class)
body of the fourth size pattern — the letters X,S,M,L (either case), a literal
`|`, digits, hyphen and whitespace. -/
def isSizeCls (c : Char) : Bool :=
  ciEq 'X' c || ciEq 'S' c || ciEq 'M' c || ciEq 'L' c || c == '|' ||
  isDigitCh c || c == '-' || isJsSpace c

/-- List `SIZE_PATTERNS`:
`/\b(?:XS|S|M|L|XL|XXL)\b/gi`, `/\b\d{1,2}[-–]\d{1,2}\b/g`,
`/\b\d{1,2}\s*[-–]\s*\d{1,2}\b/g`, `/\bSize[s]?\s*:?\s*([XS|S|M|L|XL|XXL|\d\-\s]+)/gi`. -/
def SIZE_PATTERNS : List RE :=
  [catl [.wb, altl [strRE true "XS", strRE true "S", strRE true "M",
                    strRE true "L", strRE true "XL", strRE true "XXL"], .wb],
   catl [.wb, .rep true isDigitCh 1 (some 2), .cls isDashCh,
         .rep true isDigitCh 1 (some 2), .wb],
   catl [.wb, .rep true isDigitCh 1 (some 2), wsStar, .cls isDashCh, wsStar,
         .rep true isDigitCh 1 (some 2), .wb],
   catl [.wb, strRE true "Size", optChCI 's', wsStar, optChCI ':', wsStar,
         .rep true isSizeCls 1 none]]

/-- List `DIFFICULTY_PATTERNS`:
`/\b(?:Beginner|Easy|Intermediate|Advanced|Expert)\b/gi`,
`/\b(?:Level\s*[1-4])\b/gi`, `/\b(?:Skill\s*Level)\s*:?\s*(\w+)/gi`. -/
def DIFFICULTY_PATTERNS : List RE :=
  [catl [.wb, altl [strRE true "Beginner", strRE true "Easy",
                    strRE true "Intermediate", strRE true "Advanced",
                    strRE true "Expert"], .wb],
   catl [.wb, strRE true "Level", wsStar, .cls (fun c => '1' ≤ c && c ≤ '4'), .wb],
   catl [.wb, strRE true "Skill", wsStar, strRE true "Level", wsStar,
         optChCI ':', wsStar, .rep true isWordCh 1 none]]

/-!  The extractor's data model. -/

/-- The `extractedData` member of `OCRResult`: all six fields optional. -/
structure ExtractedData where
  company : Option String
  patternNumber : Option String
  patternName : Option String
  sizeRange : Option String
  fabricType : Option String
  difficulty : Option String
deriving DecidableEq, Repr

/-- Structure `OCRResult` (its pure part: raw text already recognized). -/
structure OCRResult where
  text : String
  confidence : ℚ
  extractedData : ExtractedData
deriving DecidableEq, Repr

/-- JS truthiness of a `string | undefined` value. -/
def truthyOpt : Option String → Bool
  | none => false
  | some s => !s.isEmpty

/-- Effect of `if (x) data.f = x` on a `string | undefined`: keep only truthy values. -/
def setIfTruthy : Option String → Option String
  | none => none
  | some s => if s.isEmpty then none else some s

/-!  Embedding of `extractCompany`. -/

/-- Builds the body of the exact-phrase company regex: each whitespace run in
the catalog name becomes `\s+` (the source's
`company.replace(/'/g, '\\\'').replace(/\s+/g, '\\s+')`; the apostrophe
escaping is semantically the identity), other characters are literal and
case-insensitive.  The flag records whether we are inside a whitespace run. -/
def phraseCoreGo : Bool → List Char → List RE
  | _, [] => []
  | inRun, c :: rest =>
    if isJsSpace c then
      if inRun then phraseCoreGo true rest
      else wsPlus :: phraseCoreGo true rest
    else chrCI c :: phraseCoreGo false rest

/-- Regex ``new RegExp(`\\b${company…}\\b`, 'gi')`` — the exact-phrase regex for one
catalog company. -/
def companyPhraseRE (name : String) : RE :=
  catl ([RE.wb] ++ phraseCoreGo false name.data ++ [RE.wb])

/-- First loop of `extractCompany`: exact company matches, in catalog order. -/
def companyExactLoop : List String → String → Option String
  | [], _ => none
  | c :: cs, text =>
    if reTest (companyPhraseRE c) text then some c else companyExactLoop cs text

/-- Second loop of `extractCompany`: token-overlap fallback over the
whitespace-split, lower-cased word lists. -/
def companyFallbackLoop : List String → List String → Option String
  | [], _ => none
  | c :: cs, words =>
    if (jsSplitWs (jsToLower c)).any (fun w => words.contains w) then some c
    else companyFallbackLoop cs words

/-- Function `extractCompany` (ocrProcessor.ts lines 101–120). -/
def extractCompany (text : String) : Option String :=
  match companyExactLoop PATTERN_COMPANIES text with
  | some c => some c
  | none => companyFallbackLoop PATTERN_COMPANIES (jsSplitWs (jsToLower text))

/-!  Embedding of `extractPatternNumber`. -/

/-- The four pattern-number shapes, in priority order:
`/\b[A-Z]?\d{4,5}\b/g`, `/\b\d{3,4}[A-Z]?\b/g`,
`/Pattern\s*#?\s*:?\s*([A-Z]?\d{3,5}[A-Z]?)/gi`,
`/No\.?\s*:?\s*([A-Z]?\d{3,5}[A-Z]?)/gi`. -/
def PATTERN_NUMBER_SHAPES : List RE :=
  [catl [.wb, .rep true isUpperAZ 0 (some 1), .rep true isDigitCh 4 (some 5), .wb],
   catl [.wb, .rep true isDigitCh 3 (some 4), .rep true isUpperAZ 0 (some 1), .wb],
   catl [strRE true "Pattern", wsStar, optChCI '#', wsStar, optChCI ':', wsStar,
         .rep true isLetterCI 0 (some 1), .rep true isDigitCh 3 (some 5),
         .rep true isLetterCI 0 (some 1)],
   catl [strRE true "No", optChCS '.', wsStar, optChCI ':', wsStar,
         .rep true isLetterCI 0 (some 1), .rep true isDigitCh 3 (some 5),
         .rep true isLetterCI 0 (some 1)]]

/-- Regex `/Pattern\s*#?\s*:?\s*/gi`. -/
def patternLabelRE : RE :=
  catl [strRE true "Pattern", wsStar, optChCI '#', wsStar, optChCI ':', wsStar]

/-- Regex `/No\.?\s*:?\s*/gi`. -/
def noLabelRE : RE :=
  catl [strRE true "No", optChCS '.', wsStar, optChCI ':', wsStar]

/-- Label stripping `matches[0].replace(/Pattern\s*#?\s*:?\s*/gi, '').replace(/No\.?\s*:?\s*/gi, '')`. -/
def stripPatternNumberLabels (m : String) : String :=
  reReplaceAll noLabelRE "" (reReplaceAll patternLabelRE "" m)

/-- The `for (const pattern of patterns)` loop of `extractPatternNumber`:
on a match whose stripped text fails the 3–6 length check the loop continues
with the next shape. -/
def patternNumberLoop : List RE → String → Option String
  | [], _ => none
  | p :: ps, text =>
    match firstMatchStr p text with
    | some m0 =>
      let m1 := stripPatternNumberLabels m0
      if 3 ≤ m1.length ∧ m1.length ≤ 6 then some (jsToUpper m1)
      else patternNumberLoop ps text
    | none => patternNumberLoop ps text

/-- Function `extractPatternNumber` (ocrProcessor.ts lines 122–143). -/
def extractPatternNumber (text : String) : Option String :=
  patternNumberLoop PATTERN_NUMBER_SHAPES text

/-!  Embedding of `extractPatternName`. -/

/-- Class `[^\\n\\r]` as written inside a regex literal: a class excluding the
characters backslash, `n`, `r` — NOT line terminators.  Under the `i` flag it
also excludes `N` and `R`. -/
def isNameChCI (c : Char) : Bool :=
  !(c == '\\' || c == 'n' || c == 'r' || c == 'N' || c == 'R')

/-- Class `[^\\n\\r]` without the `i` flag: excludes backslash, `n`, `r` only. -/
def isNameChCS (c : Char) : Bool := !(c == '\\' || c == 'n' || c == 'r')

/-- The two name patterns, in priority order:
`/(?:Pattern|Design)\s*:?\s*([A-Z][^\\n\\r]{10,50})/gi` and
`/^([A-Z][^\\n\\r]{10,50})/gm`. -/
def NAME_PATTERNS : List RE :=
  [catl [altl [strRE true "Pattern", strRE true "Design"], wsStar, optChCI ':',
         wsStar, .cls isLetterCI, .rep true isNameChCI 10 (some 50)],
   catl [.bol, .cls isUpperAZ, .rep true isNameChCS 10 (some 50)]]

/-- Regex `/(?:Pattern|Design)\s*:?\s*/gi`. -/
def nameLabelRE : RE :=
  catl [altl [strRE true "Pattern", strRE true "Design"], wsStar, optChCI ':', wsStar]

/-- Regex `/\b(?:Misses|Women|Men|Children|Kids|Girls|Boys)\b/gi`. -/
def qualifierRE : RE :=
  catl [.wb, altl [strRE true "Misses", strRE true "Women", strRE true "Men",
                   strRE true "Children", strRE true "Kids", strRE true "Girls",
                   strRE true "Boys"], .wb]

/-- Regex ``new RegExp(`\\b${company}\\b`, 'gi')`` — the company name inserted
verbatim (spaces stay literal here, unlike `companyPhraseRE`). -/
def companyWordRE (name : String) : RE :=
  catl ([RE.wb] ++ name.data.map chrCI ++ [RE.wb])

/-- The cleanup applied to a raw name match: strip the label, strip the
audience qualifier words, and (when a company was extracted and truthy) strip
the company name; each step followed by `trim()`. -/
def nameClean (company : Option String) (m0 : String) : String :=
  let n1 := jsTrim (reReplaceAll nameLabelRE "" m0)
  let n2 := jsTrim (reReplaceAll qualifierRE "" n1)
  match company with
  | some c => if c.isEmpty then n2 else jsTrim (reReplaceAll (companyWordRE c) "" n2)
  | none => n2

/-- The `for (const pattern of namePatterns)` loop: on a match whose cleaned
name fails the 5–50 length check the loop continues with the next pattern. -/
def patternNameLoop : List RE → String → Option String → Option String
  | [], _, _ => none
  | p :: ps, text, company =>
    match firstMatchStr p text with
    | some m0 =>
      let nm := nameClean company m0
      if 5 ≤ nm.length ∧ nm.length ≤ 50 then some nm
      else patternNameLoop ps text company
    | none => patternNameLoop ps text company

/-- Function `extractPatternName` (ocrProcessor.ts lines 145–170). -/
def extractPatternName (text : String) (company : Option String) : Option String :=
  patternNameLoop NAME_PATTERNS text company

/-!  Embedding of `extractSizeRange`. -/

/-- Regex `/Size[s]?\s*:?\s*/gi`. -/
def sizeLabelRE : RE :=
  catl [strRE true "Size", optChCI 's', wsStar, optChCI ':', wsStar]

/-- The `for (const pattern of SIZE_PATTERNS)` loop. -/
def sizeLoop : List RE → String → Option String
  | [], _ => none
  | p :: ps, text =>
    match firstMatchStr p text with
    | some m0 =>
      let sz := jsTrim (reReplaceAll sizeLabelRE "" m0)
      if 1 ≤ sz.length ∧ sz.length ≤ 20 then some sz else sizeLoop ps text
    | none => sizeLoop ps text

/-- Function `extractSizeRange` (ocrProcessor.ts lines 172–184). -/
def extractSizeRange (text : String) : Option String :=
  sizeLoop SIZE_PATTERNS text

/-!  Embedding of `extractFabricType`. -/

/-- Regex ``new RegExp(`\\b${fabric}\\b`, 'gi')`` for one catalog fabric. -/
def fabricWordRE (name : String) : RE :=
  catl ([RE.wb] ++ name.data.map chrCI ++ [RE.wb])

/-- The three fabric label patterns
`/Fabric[s]?\s*:?\s*([^\\n\\r]{5,30})/gi`,
`/Suggested\s*Fabric[s]?\s*:?\s*([^\\n\\r]{5,30})/gi`,
`/Recommended\s*Fabric[s]?\s*:?\s*([^\\n\\r]{5,30})/gi`
(the class again excludes backslash/`n`/`r`, case-insensitively). -/
def FABRIC_KEYWORDS : List RE :=
  [catl [strRE true "Fabric", optChCI 's', wsStar, optChCI ':', wsStar,
         .rep true isNameChCI 5 (some 30)],
   catl [strRE true "Suggested", wsStar, strRE true "Fabric", optChCI 's', wsStar,
         optChCI ':', wsStar, .rep true isNameChCI 5 (some 30)],
   catl [strRE true "Recommended", wsStar, strRE true "Fabric", optChCI 's', wsStar,
         optChCI ':', wsStar, .rep true isNameChCI 5 (some 30)]]

/-- Regex `/.*?:\s*/gi` — lazy anything up to a colon, plus trailing whitespace
(used by both the fabric and the difficulty extraction to strip labels). -/
def colonLabelRE : RE :=
  catl [.rep false isDot 0 none, chrCS ':', wsStar]

/-- Label stripping `matches[0].replace(/.*?:\s*/gi, '').trim()`. -/
def stripColonLabel (m : String) : String := jsTrim (reReplaceAll colonLabelRE "" m)

/-- Function `extractFabricType` (ocrProcessor.ts lines 186–212): collect every catalog
fabric present as a standalone word, append the first match of each label
pattern (label-stripped), and comma-join the first three hits. -/
def extractFabricType (text : String) : Option String :=
  let found1 := FABRIC_TYPES.foldl
    (fun acc f => if reTest (fabricWordRE f) text then acc ++ [f] else acc) []
  let found2 := FABRIC_KEYWORDS.foldl
    (fun acc p =>
      match firstMatchStr p text with
      | some m0 => acc ++ [stripColonLabel m0]
      | none => acc) found1
  if found2.length > 0 then some (String.intercalate ", " (found2.take 3))
  else none

/-!  Embedding of `extractDifficulty`. -/

/-- Function `normalizeDifficulty` (ocrProcessor.ts lines 229–246). -/
def normalizeDifficulty (difficulty : String) : Option String :=
  let lower := jsToLower difficulty
  if strIncludes lower "beginner" || strIncludes lower "easy" ||
     strIncludes lower "level 1" then some "Beginner"
  else if strIncludes lower "intermediate" || strIncludes lower "level 2" then
    some "Intermediate"
  else if strIncludes lower "advanced" || strIncludes lower "level 3" then
    some "Advanced"
  else if strIncludes lower "expert" || strIncludes lower "level 4" then
    some "Expert"
  else none

/-- The `for (const pattern of DIFFICULTY_PATTERNS)` loop: when the matched
text normalizes to nothing the loop continues with the next pattern. -/
def difficultyLoop : List RE → String → Option String
  | [], _ => none
  | p :: ps, text =>
    match firstMatchStr p text with
    | some m0 =>
      match normalizeDifficulty (stripColonLabel m0) with
      | some r => some r
      | none => difficultyLoop ps text
    | none => difficultyLoop ps text

/-- Function `extractDifficulty` (ocrProcessor.ts lines 214–227). -/
def extractDifficulty (text : String) : Option String :=
  difficultyLoop DIFFICULTY_PATTERNS text

/-!  Assembly: `extractStructuredData`, `calculateConfidence`, and the pure
part of `processOCR`. -/

/-- Function `extractStructuredData` (ocrProcessor.ts lines 71–99). -/
def extractStructuredData (text : String) : ExtractedData :=
  let company := extractCompany text
  { company := setIfTruthy company
    patternNumber := setIfTruthy (extractPatternNumber text)
    patternName := setIfTruthy (extractPatternName text company)
    sizeRange := setIfTruthy (extractSizeRange text)
    fabricType := setIfTruthy (extractFabricType text)
    difficulty := setIfTruthy (extractDifficulty text) }

/-- Function `calculateConfidence` (ocrProcessor.ts lines 248–264). -/
def calculateConfidence (extractedData : ExtractedData) (text : String) : ℚ :=
  let score : ℚ := 0.3
  let score := if truthyOpt extractedData.company then score + 0.2 else score
  let score := if truthyOpt extractedData.patternNumber then score + 0.2 else score
  let score := if truthyOpt extractedData.patternName then score + 0.15 else score
  let score := if truthyOpt extractedData.sizeRange then score + 0.1 else score
  let score := if truthyOpt extractedData.fabricType then score + 0.05 else score
  let score := if truthyOpt extractedData.difficulty then score + 0.05 else score
  let score := if text.length > 50 then score + 0.05 else score
  let score := if text.length > 100 then score + 0.05 else score
  min score 1

/-- Normalization `extractedText.replace(/\s+/g, ' ').trim()` in
`processOCR`. -/
def cleanText (raw : String) : String := jsTrim (reReplaceAll wsPlus " " raw)

/-- The pure part of `processOCR` (ocrProcessor.ts lines 52–64): normalize the
recognized text, extract structured data, and score confidence. -/
def ocrExtract (raw : String) : OCRResult :=
  let cleaned := cleanText raw
  let extractedData := extractStructuredData cleaned
  { text := cleaned
    confidence := calculateConfidence extractedData cleaned
    extractedData := extractedData }

/-!  The form pre-fill consumer (`AddPatternDialog.tsx`).

`PatternFormData`'s two `File` members (`frontPhoto`, `backPhoto`) are opaque
blobs never read by the pre-fill logic and are omitted from the model. -/

/-- The text members of `PatternFormData`. -/
structure PatternFormData where
  patternName : String
  patternCompany : String
  patternNumber : String
  sizeRange : String
  difficulty : String
  fabricType : String
  notes : String
deriving DecidableEq, Repr

/-- The initial `formData` state (AddPatternDialog.tsx lines 25–35), which is
also what `resetForm` (lines 129–144) restores. -/
def initialFormData : PatternFormData :=
  { patternName := ""
    patternCompany := ""
    patternNumber := ""
    sizeRange := ""
    difficulty := "Beginner"
    fabricType := ""
    notes := "" }

/-- Guarded write `if (extractedData.company && !formData.patternCompany)
handleInputChange('patternCompany', …)` of `processOCRForPhoto`
(AddPatternDialog.tsx lines 65–67): the guard reads the `formData` snapshot
`form`, the functional state update applies to the current state `f`. -/
def ocrFillCompany (form : PatternFormData) (d : ExtractedData)
    (f : PatternFormData) : PatternFormData :=
  if truthyOpt d.company && form.patternCompany == "" then
    { f with patternCompany := d.company.getD "" } else f

/-- Guarded write for `patternNumber` (AddPatternDialog.tsx lines 69–71). -/
def ocrFillNumber (form : PatternFormData) (d : ExtractedData)
    (f : PatternFormData) : PatternFormData :=
  if truthyOpt d.patternNumber && form.patternNumber == "" then
    { f with patternNumber := d.patternNumber.getD "" } else f

/-- Guarded write for `patternName` (AddPatternDialog.tsx lines 73–75). -/
def ocrFillName (form : PatternFormData) (d : ExtractedData)
    (f : PatternFormData) : PatternFormData :=
  if truthyOpt d.patternName && form.patternName == "" then
    { f with patternName := d.patternName.getD "" } else f

/-- Guarded write for `sizeRange` (AddPatternDialog.tsx lines 77–79). -/
def ocrFillSize (form : PatternFormData) (d : ExtractedData)
    (f : PatternFormData) : PatternFormData :=
  if truthyOpt d.sizeRange && form.sizeRange == "" then
    { f with sizeRange := d.sizeRange.getD "" } else f

/-- Guarded write for `fabricType` (AddPatternDialog.tsx lines 81–83). -/
def ocrFillFabric (form : PatternFormData) (d : ExtractedData)
    (f : PatternFormData) : PatternFormData :=
  if truthyOpt d.fabricType && form.fabricType == "" then
    { f with fabricType := d.fabricType.getD "" } else f

/-- Guarded write for `difficulty` (AddPatternDialog.tsx lines 85–87). -/
def ocrFillDifficulty (form : PatternFormData) (d : ExtractedData)
    (f : PatternFormData) : PatternFormData :=
  if truthyOpt d.difficulty && form.difficulty == "" then
    { f with difficulty := d.difficulty.getD "" } else f

/-- The pre-fill block of `processOCRForPhoto` (AddPatternDialog.tsx lines
62–88): the six guarded writes, in source order, starting from the `formData`
snapshot `form`. -/
def processOCRPrefill (form : PatternFormData) (d : ExtractedData) :
    PatternFormData :=
  ocrFillDifficulty form d (ocrFillFabric form d (ocrFillSize form d
    (ocrFillName form d (ocrFillNumber form d (ocrFillCompany form d form)))))

/-- Form states reachable in `AddPatternDialog`: the initial state, free-text
edits of the six `Input`/`Textarea` fields, a difficulty chosen from the
`Select`'s four items (AddPatternDialog.tsx lines 419–424 — its
`onValueChange` only ever delivers one of them), `resetForm`, and an OCR
pre-fill pass. -/
inductive ReachableForm : PatternFormData → Prop where
  | init : ReachableForm initialFormData
  | setName (f : PatternFormData) (s : String) :
      ReachableForm f → ReachableForm { f with patternName := s }
  | setCompany (f : PatternFormData) (s : String) :
      ReachableForm f → ReachableForm { f with patternCompany := s }
  | setNumber (f : PatternFormData) (s : String) :
      ReachableForm f → ReachableForm { f with patternNumber := s }
  | setSize (f : PatternFormData) (s : String) :
      ReachableForm f → ReachableForm { f with sizeRange := s }
  | setFabric (f : PatternFormData) (s : String) :
      ReachableForm f → ReachableForm { f with fabricType := s }
  | setNotes (f : PatternFormData) (s : String) :
      ReachableForm f → ReachableForm { f with notes := s }
  | setDifficulty (f : PatternFormData) (s : String)
      (hs : s = "Beginner" ∨ s = "Intermediate" ∨ s = "Advanced" ∨ s = "Expert") :
      ReachableForm f → ReachableForm { f with difficulty := s }
  | reset (f : PatternFormData) : ReachableForm f → ReachableForm initialFormData
  | ocr (f : PatternFormData) (d : ExtractedData) :
      ReachableForm f → ReachableForm (processOCRPrefill f d)

/-!  Specification-side definitions, written from the spec's (or, for the
amended claims, the amendment's) wording, to be compared with the embedded
source functions. -/

/-- Spec §4.1 scoring: the per-field weights of the confidence formula, keyed
on field presence. -/
def fieldScore (d : ExtractedData) : ℚ :=
  (if d.company.isSome then 0.2 else 0) +
  (if d.patternNumber.isSome then 0.2 else 0) +
  (if d.patternName.isSome then 0.15 else 0) +
  (if d.sizeRange.isSome then 0.1 else 0) +
  (if d.fabricType.isSome then 0.05 else 0) +
  (if d.difficulty.isSome then 0.05 else 0)

/-- Spec §4.1 scoring: the length-quality bonuses. -/
def lengthScore (t : String) : ℚ :=
  (if t.length > 50 then 0.05 else 0) + (if t.length > 100 then 0.05 else 0)

/-- All six extracted fields are absent. -/
def allAbsent (d : ExtractedData) : Prop :=
  d.company = none ∧ d.patternNumber = none ∧ d.patternName = none ∧
  d.sizeRange = none ∧ d.fabricType = none ∧ d.difficulty = none

instance (d : ExtractedData) : Decidable (allAbsent d) := by
  unfold allAbsent; infer_instance

/-- A string of `n` letters `a` (matchable by nothing in the extractor). -/
def aChars (n : Nat) : String := String.mk (List.replicate n 'a')

/-- Amended C4: pattern-number extraction as the first shape, in priority
order, whose first match passes the 3–6 length check after label stripping
(shapes whose match fails the check are skipped, later shapes still tried). -/
def patternNumberSpec (text : String) : Option String :=
  PATTERN_NUMBER_SHAPES.findSome? (fun p =>
    match firstMatchStr p text with
    | none => none
    | some m0 =>
      let m1 := stripPatternNumberLabels m0
      if 3 ≤ m1.length ∧ m1.length ≤ 6 then some (jsToUpper m1) else none)

/-- Amended C5: difficulty extraction as the first difficulty pattern, in
priority order, whose label-stripped match normalizes to one of the four
levels (patterns whose match normalizes to nothing are skipped). -/
def difficultySpec (text : String) : Option String :=
  DIFFICULTY_PATTERNS.findSome? (fun p =>
    (firstMatchStr p text).bind (fun m0 => normalizeDifficulty (stripColonLabel m0)))

/-- Amended C6: pattern-name extraction as the first name pattern, in priority
order, whose cleaned match passes the 5–50 length check (patterns whose match
fails the check are skipped). -/
def patternNameSpec (text : String) (company : Option String) : Option String :=
  NAME_PATTERNS.findSome? (fun p =>
    (firstMatchStr p text).bind (fun m0 =>
      let nm := nameClean company m0
      if 5 ≤ nm.length ∧ nm.length ≤ 50 then some nm else none))

/-- Amended C7: fabric extraction as the catalog hits in catalog order,
followed by the label-stripped first match of each label pattern; the first
three entries comma-joined, absent when there are zero hits. -/
def fabricTypeSpec (text : String) : Option String :=
  let hits := FABRIC_TYPES.filter (fun f => reTest (fabricWordRE f) text) ++
    FABRIC_KEYWORDS.filterMap (fun p => (firstMatchStr p text).map stripColonLabel)
  match hits with
  | [] => none
  | _ :: _ => some (String.intercalate ", " (hits.take 3))

/-- Spec §4.1 rule 1 fallback: the first catalog entry, in catalog-list order,
any of whose (lower-cased, whitespace-split) words appears as a standalone
token of the (lower-cased, whitespace-split) input. -/
def companyTokenFallbackSpec (text : String) : Option String :=
  PATTERN_COMPANIES.find? (fun c =>
    (jsSplitWs (jsToLower c)).any (fun w => (jsSplitWs (jsToLower text)).contains w))

/-- Concrete input whose first matching pattern-number shape is the labelled
`Pattern #` shape, with a stripped first match of 7 characters. -/
def pnInput : String := "Pattern # A12345B No. C678D"

/-- Concrete input whose first matching difficulty pattern is `Level\s*[1-4]`,
matching `Level3`, which normalizes to nothing. -/
def diffInput : String := "Level3 Skill Level: Beginners"

/-- Concrete input whose first matching name pattern is the label pattern,
with a cleaned match of 4 characters. -/
def nameInput : String := "GREAT BLOUSE Design: Misses Kids Coat"

/-- Concrete input in which the `Fabric` label occurs without a colon. -/
def fabricInput : String := "Fabric good quality stuff"

/-- A form state with every OCR-fillable field already populated. -/
def fullForm : PatternFormData :=
  { patternName := "Wrap Dress"
    patternCompany := "Simplicity"
    patternNumber := "8234"
    sizeRange := "6-14"
    difficulty := "Expert"
    fabricType := "Cotton"
    notes := "already filled" }

/-- An extraction result with every field populated. -/
def richData : ExtractedData :=
  { company := some "Vogue"
    patternNumber := some "9999"
    patternName := some "Summer Gown"
    sizeRange := some "S"
    fabricType := some "Silk"
    difficulty := some "Beginner" }

/-- An extraction result carrying only a difficulty. -/
def diffOnlyData : ExtractedData :=
  { company := none
    patternNumber := none
    patternName := none
    sizeRange := none
    fabricType := none
    difficulty := some "Expert" }

/-!  Helper lemmas. -/

/-- Truthiness of a `setIfTruthy` result coincides with presence. -/
theorem truthy_setIfTruthy (o : Option String) :
    truthyOpt (setIfTruthy o) = (setIfTruthy o).isSome := by
  cases o with
  | none => rfl
  | some s =>
    by_cases h : s.isEmpty <;> simp [setIfTruthy, truthyOpt, h]

/-- Conditional increment as a sum. -/
theorem ite_add_shift (c : Prop) [Decidable c] (s w : ℚ) :
    (if c then s + w else s) = s + (if c then w else 0) := by
  split_ifs <;> ring

/-- Conditional bonuses are nonnegative. -/
theorem ite_nonneg (c : Prop) [Decidable c] (w : ℚ) (hw : 0 ≤ w) :
    0 ≤ if c then w else 0 := by
  split_ifs with h
  · exact hw
  · exact le_refl 0

/-- Bounds on the length-quality bonus. -/
theorem lengthScore_bounds (t : String) : 0 ≤ lengthScore t ∧ lengthScore t ≤ 0.1 := by
  unfold lengthScore
  constructor <;> split_ifs <;> norm_num

/-- The confidence of any extraction result is the spec's formula. -/
theorem confidence_formula (raw : String) :
    (ocrExtract raw).confidence =
      min 1 (0.3 + fieldScore (ocrExtract raw).extractedData +
             lengthScore (ocrExtract raw).text) := by
  show calculateConfidence (extractStructuredData (cleanText raw)) (cleanText raw) =
    min 1 (0.3 + fieldScore (extractStructuredData (cleanText raw)) +
           lengthScore (cleanText raw))
  generalize cleanText raw = t
  simp only [calculateConfidence, extractStructuredData, fieldScore, lengthScore,
    truthy_setIfTruthy]
  rw [min_comm]
  congr 1
  simp only [ite_add_shift]
  ring

/-- The confidence is always between the base score and 1. -/
theorem confidence_bounds (raw : String) :
    0.3 ≤ (ocrExtract raw).confidence ∧ (ocrExtract raw).confidence ≤ 1 := by
  rw [confidence_formula raw]
  constructor
  · refine le_min (by norm_num) ?_
    have h1 := ite_nonneg ((ocrExtract raw).extractedData.company.isSome = true)
      (0.2 : ℚ) (by norm_num)
    have h2 := ite_nonneg ((ocrExtract raw).extractedData.patternNumber.isSome = true)
      (0.2 : ℚ) (by norm_num)
    have h3 := ite_nonneg ((ocrExtract raw).extractedData.patternName.isSome = true)
      (0.15 : ℚ) (by norm_num)
    have h4 := ite_nonneg ((ocrExtract raw).extractedData.sizeRange.isSome = true)
      (0.1 : ℚ) (by norm_num)
    have h5 := ite_nonneg ((ocrExtract raw).extractedData.fabricType.isSome = true)
      (0.05 : ℚ) (by norm_num)
    have h6 := ite_nonneg ((ocrExtract raw).extractedData.difficulty.isSome = true)
      (0.05 : ℚ) (by norm_num)
    have h7 := (lengthScore_bounds (ocrExtract raw).text).1
    unfold fieldScore
    linarith
  · exact min_le_left 1 _

/-- Length is preserved by the upper-casing map. -/
theorem jsToUpper_length (s : String) : (jsToUpper s).length = s.length := by
  show (s.data.map Char.toUpper).length = s.data.length
  exact List.length_map s.data Char.toUpper

/-- The pattern-number loop is the first shape, in order, whose stripped first
match passes the 3–6 length check. -/
theorem patternNumberLoop_eq_findSome (ps : List RE) (t : String) :
    patternNumberLoop ps t = ps.findSome? (fun p =>
      match firstMatchStr p t with
      | none => none
      | some m0 =>
        let m1 := stripPatternNumberLabels m0
        if 3 ≤ m1.length ∧ m1.length ≤ 6 then some (jsToUpper m1) else none) := by
  induction ps with
  | nil => rfl
  | cons p ps ih =>
    simp only [patternNumberLoop, List.findSome?]
    cases h : firstMatchStr p t with
    | none => simpa using ih
    | some m0 =>
      by_cases hc : 3 ≤ (stripPatternNumberLabels m0).length ∧
          (stripPatternNumberLabels m0).length ≤ 6
      · simp [hc]
      · simp [hc, ih]

/-- Any accepted pattern number is 3–6 characters and an upper-cased string. -/
theorem patternNumberLoop_some (ps : List RE) (t : String) (r : String)
    (h : patternNumberLoop ps t = some r) :
    (3 ≤ r.length ∧ r.length ≤ 6) ∧ ∃ s, r = jsToUpper s := by
  induction ps with
  | nil => simp [patternNumberLoop] at h
  | cons p ps ih =>
    simp only [patternNumberLoop] at h
    split at h
    · next m0 heq =>
      split at h
      · next hc =>
        obtain rfl : jsToUpper (stripPatternNumberLabels m0) = r :=
          Option.some_injective _ h
        refine ⟨?_, stripPatternNumberLabels m0, rfl⟩
        rw [jsToUpper_length]
        exact hc
      · exact ih h
    · exact ih h

/-- The difficulty loop is the first pattern, in order, whose stripped first
match normalizes to a difficulty level. -/
theorem difficultyLoop_eq_findSome (ps : List RE) (t : String) :
    difficultyLoop ps t = ps.findSome? (fun p =>
      (firstMatchStr p t).bind (fun m0 => normalizeDifficulty (stripColonLabel m0))) := by
  induction ps with
  | nil => rfl
  | cons p ps ih =>
    simp only [difficultyLoop, List.findSome?]
    cases h : firstMatchStr p t with
    | none => simpa using ih
    | some m0 =>
      cases hn : normalizeDifficulty (stripColonLabel m0) with
      | none => simp [hn, ih]
      | some r => simp [hn]

/-- Normalized difficulties are one of the four levels. -/
theorem normalizeDifficulty_mem (s r : String) (h : normalizeDifficulty s = some r) :
    r = "Beginner" ∨ r = "Intermediate" ∨ r = "Advanced" ∨ r = "Expert" := by
  simp only [normalizeDifficulty] at h
  split_ifs at h <;> simp_all

/-- Any extracted difficulty is one of the four levels. -/
theorem difficultyLoop_some (ps : List RE) (t : String) (r : String)
    (h : difficultyLoop ps t = some r) :
    r = "Beginner" ∨ r = "Intermediate" ∨ r = "Advanced" ∨ r = "Expert" := by
  induction ps with
  | nil => simp [difficultyLoop] at h
  | cons p ps ih =>
    simp only [difficultyLoop] at h
    split at h
    · next m0 heq =>
      split at h
      · next r0 hn =>
        obtain rfl : r0 = r := Option.some_injective _ h
        exact normalizeDifficulty_mem _ _ hn
      · exact ih h
    · exact ih h

/-- The name loop is the first pattern, in order, whose cleaned first match
passes the 5–50 length check. -/
theorem patternNameLoop_eq_findSome (ps : List RE) (t : String) (c : Option String) :
    patternNameLoop ps t c = ps.findSome? (fun p =>
      (firstMatchStr p t).bind (fun m0 =>
        let nm := nameClean c m0
        if 5 ≤ nm.length ∧ nm.length ≤ 50 then some nm else none)) := by
  induction ps with
  | nil => rfl
  | cons p ps ih =>
    simp only [patternNameLoop, List.findSome?]
    cases h : firstMatchStr p t with
    | none => simpa using ih
    | some m0 =>
      by_cases hc : 5 ≤ (nameClean c m0).length ∧ (nameClean c m0).length ≤ 50
      · simp [hc]
      · simp [hc, ih]

/-- Any accepted pattern name is 5–50 characters. -/
theorem patternNameLoop_some (ps : List RE) (t : String) (c : Option String)
    (r : String) (h : patternNameLoop ps t c = some r) :
    5 ≤ r.length ∧ r.length ≤ 50 := by
  induction ps with
  | nil => simp [patternNameLoop] at h
  | cons p ps ih =>
    simp only [patternNameLoop] at h
    split at h
    · next m0 heq =>
      split at h
      · next hc =>
        obtain rfl : nameClean c m0 = r := Option.some_injective _ h
        exact hc
      · exact ih h
    · exact ih h

/-- Folding conditional pushes is filtering. -/
theorem foldl_pushIf (p : String → Bool) (l : List String) (acc : List String) :
    l.foldl (fun a f => if p f then a ++ [f] else a) acc = acc ++ l.filter p := by
  induction l generalizing acc with
  | nil => simp
  | cons x xs ih =>
    by_cases hx : p x <;> simp [List.foldl, List.filter, hx, ih]

/-- Folding the label-scan pushes is filter-mapping the first matches. -/
theorem foldl_pushMatch (t : String) (l : List RE) (acc : List String) :
    l.foldl (fun a p =>
      match firstMatchStr p t with
      | some m0 => a ++ [stripColonLabel m0]
      | none => a) acc =
      acc ++ l.filterMap (fun p => (firstMatchStr p t).map stripColonLabel) := by
  induction l generalizing acc with
  | nil => simp
  | cons x xs ih =>
    cases hx : firstMatchStr x t <;>
      simp [List.foldl, List.filterMap_cons, hx, ih]

/-- The fabric extraction is its catalog-filter / label-scan description. -/
theorem extractFabricType_eq_spec (t : String) :
    extractFabricType t = fabricTypeSpec t := by
  simp only [extractFabricType, fabricTypeSpec]
  rw [foldl_pushIf, foldl_pushMatch]
  simp only [List.nil_append]
  generalize FABRIC_TYPES.filter (fun f => reTest (fabricWordRE f) t) ++
    FABRIC_KEYWORDS.filterMap (fun p => (firstMatchStr p t).map stripColonLabel) = hits
  cases hits with
  | nil => simp
  | cons a l => simp

/-- The company fallback loop is a catalog-order search. -/
theorem companyFallbackLoop_eq_find (cs : List String) (ws : List String) :
    companyFallbackLoop cs ws =
      cs.find? (fun c => (jsSplitWs (jsToLower c)).any (fun w => ws.contains w)) := by
  induction cs with
  | nil => rfl
  | cons c cs ih =>
    show (if (jsSplitWs (jsToLower c)).any (fun w => ws.contains w) then some c
          else companyFallbackLoop cs ws) = _
    by_cases hc : ((jsSplitWs (jsToLower c)).any (fun w => ws.contains w)) = true
    · rw [if_pos hc, @List.find?_cons_of_pos _
        (fun c => (jsSplitWs (jsToLower c)).any (fun w => ws.contains w)) c cs hc]
    · rw [if_neg hc, ih, @List.find?_cons_of_neg _
        (fun c => (jsSplitWs (jsToLower c)).any (fun w => ws.contains w)) c cs hc]

/-- Step `ocrFillCompany` leaves `patternNumber` unchanged. -/
theorem ocrFillCompany_patternNumber (form : PatternFormData) (d : ExtractedData)
    (f : PatternFormData) : (ocrFillCompany form d f).patternNumber = f.patternNumber := by
  unfold ocrFillCompany
  split_ifs <;> rfl

/-- Step `ocrFillCompany` leaves `patternName` unchanged. -/
theorem ocrFillCompany_patternName (form : PatternFormData) (d : ExtractedData)
    (f : PatternFormData) : (ocrFillCompany form d f).patternName = f.patternName := by
  unfold ocrFillCompany
  split_ifs <;> rfl

/-- Step `ocrFillCompany` leaves `sizeRange` unchanged. -/
theorem ocrFillCompany_sizeRange (form : PatternFormData) (d : ExtractedData)
    (f : PatternFormData) : (ocrFillCompany form d f).sizeRange = f.sizeRange := by
  unfold ocrFillCompany
  split_ifs <;> rfl

/-- Step `ocrFillCompany` leaves `fabricType` unchanged. -/
theorem ocrFillCompany_fabricType (form : PatternFormData) (d : ExtractedData)
    (f : PatternFormData) : (ocrFillCompany form d f).fabricType = f.fabricType := by
  unfold ocrFillCompany
  split_ifs <;> rfl

/-- Step `ocrFillCompany` leaves `difficulty` unchanged. -/
theorem ocrFillCompany_difficulty (form : PatternFormData) (d : ExtractedData)
    (f : PatternFormData) : (ocrFillCompany form d f).difficulty = f.difficulty := by
  unfold ocrFillCompany
  split_ifs <;> rfl

/-- Step `ocrFillNumber` leaves `patternCompany` unchanged. -/
theorem ocrFillNumber_patternCompany (form : PatternFormData) (d : ExtractedData)
    (f : PatternFormData) : (ocrFillNumber form d f).patternCompany = f.patternCompany := by
  unfold ocrFillNumber
  split_ifs <;> rfl

/-- Step `ocrFillNumber` leaves `patternName` unchanged. -/
theorem ocrFillNumber_patternName (form : PatternFormData) (d : ExtractedData)
    (f : PatternFormData) : (ocrFillNumber form d f).patternName = f.patternName := by
  unfold ocrFillNumber
  split_ifs <;> rfl

/-- Step `ocrFillNumber` leaves `sizeRange` unchanged. -/
theorem ocrFillNumber_sizeRange (form : PatternFormData) (d : ExtractedData)
    (f : PatternFormData) : (ocrFillNumber form d f).sizeRange = f.sizeRange := by
  unfold ocrFillNumber
  split_ifs <;> rfl

/-- Step `ocrFillNumber` leaves `fabricType` unchanged. -/
theorem ocrFillNumber_fabricType (form : PatternFormData) (d : ExtractedData)
    (f : PatternFormData) : (ocrFillNumber form d f).fabricType = f.fabricType := by
  unfold ocrFillNumber
  split_ifs <;> rfl

/-- Step `ocrFillNumber` leaves `difficulty` unchanged. -/
theorem ocrFillNumber_difficulty (form : PatternFormData) (d : ExtractedData)
    (f : PatternFormData) : (ocrFillNumber form d f).difficulty = f.difficulty := by
  unfold ocrFillNumber
  split_ifs <;> rfl

/-- Step `ocrFillName` leaves `patternCompany` unchanged. -/
theorem ocrFillName_patternCompany (form : PatternFormData) (d : ExtractedData)
    (f : PatternFormData) : (ocrFillName form d f).patternCompany = f.patternCompany := by
  unfold ocrFillName
  split_ifs <;> rfl

/-- Step `ocrFillName` leaves `patternNumber` unchanged. -/
theorem ocrFillName_patternNumber (form : PatternFormData) (d : ExtractedData)
    (f : PatternFormData) : (ocrFillName form d f).patternNumber = f.patternNumber := by
  unfold ocrFillName
  split_ifs <;> rfl

/-- Step `ocrFillName` leaves `sizeRange` unchanged. -/
theorem ocrFillName_sizeRange (form : PatternFormData) (d : ExtractedData)
    (f : PatternFormData) : (ocrFillName form d f).sizeRange = f.sizeRange := by
  unfold ocrFillName
  split_ifs <;> rfl

/-- Step `ocrFillName` leaves `fabricType` unchanged. -/
theorem ocrFillName_fabricType (form : PatternFormData) (d : ExtractedData)
    (f : PatternFormData) : (ocrFillName form d f).fabricType = f.fabricType := by
  unfold ocrFillName
  split_ifs <;> rfl

/-- Step `ocrFillName` leaves `difficulty` unchanged. -/
theorem ocrFillName_difficulty (form : PatternFormData) (d : ExtractedData)
    (f : PatternFormData) : (ocrFillName form d f).difficulty = f.difficulty := by
  unfold ocrFillName
  split_ifs <;> rfl

/-- Step `ocrFillSize` leaves `patternCompany` unchanged. -/
theorem ocrFillSize_patternCompany (form : PatternFormData) (d : ExtractedData)
    (f : PatternFormData) : (ocrFillSize form d f).patternCompany = f.patternCompany := by
  unfold ocrFillSize
  split_ifs <;> rfl

/-- Step `ocrFillSize` leaves `patternNumber` unchanged. -/
theorem ocrFillSize_patternNumber (form : PatternFormData) (d : ExtractedData)
    (f : PatternFormData) : (ocrFillSize form d f).patternNumber = f.patternNumber := by
  unfold ocrFillSize
  split_ifs <;> rfl

/-- Step `ocrFillSize` leaves `patternName` unchanged. -/
theorem ocrFillSize_patternName (form : PatternFormData) (d : ExtractedData)
    (f : PatternFormData) : (ocrFillSize form d f).patternName = f.patternName := by
  unfold ocrFillSize
  split_ifs <;> rfl

/-- Step `ocrFillSize` leaves `fabricType` unchanged. -/
theorem ocrFillSize_fabricType (form : PatternFormData) (d : ExtractedData)
    (f : PatternFormData) : (ocrFillSize form d f).fabricType = f.fabricType := by
  unfold ocrFillSize
  split_ifs <;> rfl

/-- Step `ocrFillSize` leaves `difficulty` unchanged. -/
theorem ocrFillSize_difficulty (form : PatternFormData) (d : ExtractedData)
    (f : PatternFormData) : (ocrFillSize form d f).difficulty = f.difficulty := by
  unfold ocrFillSize
  split_ifs <;> rfl

/-- Step `ocrFillFabric` leaves `patternCompany` unchanged. -/
theorem ocrFillFabric_patternCompany (form : PatternFormData) (d : ExtractedData)
    (f : PatternFormData) : (ocrFillFabric form d f).patternCompany = f.patternCompany := by
  unfold ocrFillFabric
  split_ifs <;> rfl

/-- Step `ocrFillFabric` leaves `patternNumber` unchanged. -/
theorem ocrFillFabric_patternNumber (form : PatternFormData) (d : ExtractedData)
    (f : PatternFormData) : (ocrFillFabric form d f).patternNumber = f.patternNumber := by
  unfold ocrFillFabric
  split_ifs <;> rfl

/-- Step `ocrFillFabric` leaves `patternName` unchanged. -/
theorem ocrFillFabric_patternName (form : PatternFormData) (d : ExtractedData)
    (f : PatternFormData) : (ocrFillFabric form d f).patternName = f.patternName := by
  unfold ocrFillFabric
  split_ifs <;> rfl

/-- Step `ocrFillFabric` leaves `sizeRange` unchanged. -/
theorem ocrFillFabric_sizeRange (form : PatternFormData) (d : ExtractedData)
    (f : PatternFormData) : (ocrFillFabric form d f).sizeRange = f.sizeRange := by
  unfold ocrFillFabric
  split_ifs <;> rfl

/-- Step `ocrFillFabric` leaves `difficulty` unchanged. -/
theorem ocrFillFabric_difficulty (form : PatternFormData) (d : ExtractedData)
    (f : PatternFormData) : (ocrFillFabric form d f).difficulty = f.difficulty := by
  unfold ocrFillFabric
  split_ifs <;> rfl

/-- Step `ocrFillDifficulty` leaves `patternCompany` unchanged. -/
theorem ocrFillDifficulty_patternCompany (form : PatternFormData) (d : ExtractedData)
    (f : PatternFormData) : (ocrFillDifficulty form d f).patternCompany = f.patternCompany := by
  unfold ocrFillDifficulty
  split_ifs <;> rfl

/-- Step `ocrFillDifficulty` leaves `patternNumber` unchanged. -/
theorem ocrFillDifficulty_patternNumber (form : PatternFormData) (d : ExtractedData)
    (f : PatternFormData) : (ocrFillDifficulty form d f).patternNumber = f.patternNumber := by
  unfold ocrFillDifficulty
  split_ifs <;> rfl

/-- Step `ocrFillDifficulty` leaves `patternName` unchanged. -/
theorem ocrFillDifficulty_patternName (form : PatternFormData) (d : ExtractedData)
    (f : PatternFormData) : (ocrFillDifficulty form d f).patternName = f.patternName := by
  unfold ocrFillDifficulty
  split_ifs <;> rfl

/-- Step `ocrFillDifficulty` leaves `sizeRange` unchanged. -/
theorem ocrFillDifficulty_sizeRange (form : PatternFormData) (d : ExtractedData)
    (f : PatternFormData) : (ocrFillDifficulty form d f).sizeRange = f.sizeRange := by
  unfold ocrFillDifficulty
  split_ifs <;> rfl

/-- Step `ocrFillDifficulty` leaves `fabricType` unchanged. -/
theorem ocrFillDifficulty_fabricType (form : PatternFormData) (d : ExtractedData)
    (f : PatternFormData) : (ocrFillDifficulty form d f).fabricType = f.fabricType := by
  unfold ocrFillDifficulty
  split_ifs <;> rfl

/-- Step `ocrFillCompany` also leaves `patternCompany` unchanged when the snapshot
field is non-empty (the guard fails). -/
theorem ocrFillCompany_of_ne (form : PatternFormData) (d : ExtractedData)
    (f : PatternFormData) (h : form.patternCompany ≠ "") :
    (ocrFillCompany form d f).patternCompany = f.patternCompany := by
  unfold ocrFillCompany
  rw [if_neg (by simp [beq_eq_false_iff_ne.mpr h])]

/-- Step `ocrFillNumber` also leaves `patternNumber` unchanged when the snapshot
field is non-empty (the guard fails). -/
theorem ocrFillNumber_of_ne (form : PatternFormData) (d : ExtractedData)
    (f : PatternFormData) (h : form.patternNumber ≠ "") :
    (ocrFillNumber form d f).patternNumber = f.patternNumber := by
  unfold ocrFillNumber
  rw [if_neg (by simp [beq_eq_false_iff_ne.mpr h])]

/-- Step `ocrFillName` also leaves `patternName` unchanged when the snapshot
field is non-empty (the guard fails). -/
theorem ocrFillName_of_ne (form : PatternFormData) (d : ExtractedData)
    (f : PatternFormData) (h : form.patternName ≠ "") :
    (ocrFillName form d f).patternName = f.patternName := by
  unfold ocrFillName
  rw [if_neg (by simp [beq_eq_false_iff_ne.mpr h])]

/-- Step `ocrFillSize` also leaves `sizeRange` unchanged when the snapshot
field is non-empty (the guard fails). -/
theorem ocrFillSize_of_ne (form : PatternFormData) (d : ExtractedData)
    (f : PatternFormData) (h : form.sizeRange ≠ "") :
    (ocrFillSize form d f).sizeRange = f.sizeRange := by
  unfold ocrFillSize
  rw [if_neg (by simp [beq_eq_false_iff_ne.mpr h])]

/-- Step `ocrFillFabric` also leaves `fabricType` unchanged when the snapshot
field is non-empty (the guard fails). -/
theorem ocrFillFabric_of_ne (form : PatternFormData) (d : ExtractedData)
    (f : PatternFormData) (h : form.fabricType ≠ "") :
    (ocrFillFabric form d f).fabricType = f.fabricType := by
  unfold ocrFillFabric
  rw [if_neg (by simp [beq_eq_false_iff_ne.mpr h])]

/-- Step `ocrFillDifficulty` also leaves `difficulty` unchanged when the snapshot
field is non-empty (the guard fails). -/
theorem ocrFillDifficulty_of_ne (form : PatternFormData) (d : ExtractedData)
    (f : PatternFormData) (h : form.difficulty ≠ "") :
    (ocrFillDifficulty form d f).difficulty = f.difficulty := by
  unfold ocrFillDifficulty
  rw [if_neg (by simp [beq_eq_false_iff_ne.mpr h])]

/-- Pre-fill never touches a non-empty `patternCompany` field. -/
theorem prefill_keeps_patternCompany (form : PatternFormData) (d : ExtractedData)
    (h : form.patternCompany ≠ "") :
    (processOCRPrefill form d).patternCompany = form.patternCompany := by
  unfold processOCRPrefill
  rw [ocrFillDifficulty_patternCompany,
    ocrFillFabric_patternCompany,
    ocrFillSize_patternCompany,
    ocrFillName_patternCompany,
    ocrFillNumber_patternCompany,
    ocrFillCompany_of_ne form d _ h]

/-- Pre-fill never touches a non-empty `patternNumber` field. -/
theorem prefill_keeps_patternNumber (form : PatternFormData) (d : ExtractedData)
    (h : form.patternNumber ≠ "") :
    (processOCRPrefill form d).patternNumber = form.patternNumber := by
  unfold processOCRPrefill
  rw [ocrFillDifficulty_patternNumber,
    ocrFillFabric_patternNumber,
    ocrFillSize_patternNumber,
    ocrFillName_patternNumber,
    ocrFillNumber_of_ne form d _ h,
    ocrFillCompany_patternNumber]

/-- Pre-fill never touches a non-empty `patternName` field. -/
theorem prefill_keeps_patternName (form : PatternFormData) (d : ExtractedData)
    (h : form.patternName ≠ "") :
    (processOCRPrefill form d).patternName = form.patternName := by
  unfold processOCRPrefill
  rw [ocrFillDifficulty_patternName,
    ocrFillFabric_patternName,
    ocrFillSize_patternName,
    ocrFillName_of_ne form d _ h,
    ocrFillNumber_patternName,
    ocrFillCompany_patternName]

/-- Pre-fill never touches a non-empty `sizeRange` field. -/
theorem prefill_keeps_sizeRange (form : PatternFormData) (d : ExtractedData)
    (h : form.sizeRange ≠ "") :
    (processOCRPrefill form d).sizeRange = form.sizeRange := by
  unfold processOCRPrefill
  rw [ocrFillDifficulty_sizeRange,
    ocrFillFabric_sizeRange,
    ocrFillSize_of_ne form d _ h,
    ocrFillName_sizeRange,
    ocrFillNumber_sizeRange,
    ocrFillCompany_sizeRange]

/-- Pre-fill never touches a non-empty `fabricType` field. -/
theorem prefill_keeps_fabricType (form : PatternFormData) (d : ExtractedData)
    (h : form.fabricType ≠ "") :
    (processOCRPrefill form d).fabricType = form.fabricType := by
  unfold processOCRPrefill
  rw [ocrFillDifficulty_fabricType,
    ocrFillFabric_of_ne form d _ h,
    ocrFillSize_fabricType,
    ocrFillName_fabricType,
    ocrFillNumber_fabricType,
    ocrFillCompany_fabricType]

/-- Pre-fill never touches a non-empty `difficulty` field. -/
theorem prefill_keeps_difficulty (form : PatternFormData) (d : ExtractedData)
    (h : form.difficulty ≠ "") :
    (processOCRPrefill form d).difficulty = form.difficulty := by
  unfold processOCRPrefill
  rw [ocrFillDifficulty_of_ne form d _ h,
    ocrFillFabric_difficulty,
    ocrFillSize_difficulty,
    ocrFillName_difficulty,
    ocrFillNumber_difficulty,
    ocrFillCompany_difficulty]

/-- In every reachable form state the difficulty is one of the four
`Select` items. -/
theorem reachable_difficulty_mem (f : PatternFormData) (h : ReachableForm f) :
    f.difficulty = "Beginner" ∨ f.difficulty = "Intermediate" ∨
    f.difficulty = "Advanced" ∨ f.difficulty = "Expert" := by
  induction h with
  | init => left; rfl
  | setName f s hf ih => exact ih
  | setCompany f s hf ih => exact ih
  | setNumber f s hf ih => exact ih
  | setSize f s hf ih => exact ih
  | setFabric f s hf ih => exact ih
  | setNotes f s hf ih => exact ih
  | setDifficulty f s hs hf ih => exact hs
  | reset f hf ih => left; rfl
  | ocr f d hf ih =>
    have hne : f.difficulty ≠ "" := by
      rcases ih with h1 | h1 | h1 | h1 <;> rw [h1] <;> decide
    rw [prefill_keeps_difficulty f d hne]
    exact ih

/-!  The claims. -/

/-- C1: for every input string, the confidence of the `ExtractionResult`
produced by the extractor lies in the closed interval [0.3, 1.0] (and hence in
the spec's stated interval [0.0, 1.0]). -/
theorem C1_confidence_in_range : ∀ raw : String,
    0.3 ≤ (ocrExtract raw).confidence ∧ (ocrExtract raw).confidence ≤ 1 ∧
    0 ≤ (ocrExtract raw).confidence := by
  intro raw
  obtain ⟨h1, h2⟩ := confidence_bounds raw
  exact ⟨h1, h2, le_trans (by norm_num) h1⟩

/-- C2: for every input text, the confidence equals
min(1.0, 0.3 + the fixed per-field weights for the populated fields + the
length bonuses: +0.05 when the normalized text is longer than 50 characters
and another +0.05 when longer than 100); in particular a normalized text of
exactly 50 characters gets no length bonus, one of 51 characters gets +0.05,
and one of 101 characters gets +0.10 total. -/
theorem C2_confidence_formula :
    (∀ raw : String, (ocrExtract raw).confidence =
      min 1 (0.3 + fieldScore (ocrExtract raw).extractedData +
             lengthScore (ocrExtract raw).text)) ∧
    (∀ raw : String, (ocrExtract raw).text.length = 50 →
      (ocrExtract raw).confidence =
        min 1 (0.3 + fieldScore (ocrExtract raw).extractedData)) ∧
    (∀ raw : String, (ocrExtract raw).text.length = 51 →
      (ocrExtract raw).confidence =
        min 1 (0.3 + fieldScore (ocrExtract raw).extractedData + 0.05)) ∧
    (∀ raw : String, (ocrExtract raw).text.length = 101 →
      (ocrExtract raw).confidence =
        min 1 (0.3 + fieldScore (ocrExtract raw).extractedData + 0.1)) := by
  refine ⟨confidence_formula, ?_, ?_, ?_⟩
  · intro raw h
    rw [confidence_formula raw]
    have hl : lengthScore (ocrExtract raw).text = 0 := by
      norm_num [lengthScore, h]
    rw [hl, add_zero]
  · intro raw h
    rw [confidence_formula raw]
    have hl : lengthScore (ocrExtract raw).text = 0.05 := by
      norm_num [lengthScore, h]
    rw [hl]
  · intro raw h
    rw [confidence_formula raw]
    have hl : lengthScore (ocrExtract raw).text = 0.1 := by
      norm_num [lengthScore, h]
    rw [hl]

/-- Witness for C2: the three length-threshold cases applied to concrete
50-, 51- and 101-character inputs. -/
theorem C2_confidence_formula_witness :
    ((ocrExtract (aChars 50)).confidence =
      min 1 (0.3 + fieldScore (ocrExtract (aChars 50)).extractedData)) ∧
    ((ocrExtract (aChars 51)).confidence =
      min 1 (0.3 + fieldScore (ocrExtract (aChars 51)).extractedData + 0.05)) ∧
    ((ocrExtract (aChars 101)).confidence =
      min 1 (0.3 + fieldScore (ocrExtract (aChars 101)).extractedData + 0.1)) :=
  ⟨C2_confidence_formula.2.1 (aChars 50) (by decide),
   C2_confidence_formula.2.2.1 (aChars 51) (by decide),
   C2_confidence_formula.2.2.2 (aChars 101) (by decide)⟩

/-- Counterexample to C3: a 51-character input with no extractable data gets
confidence 0.35 (base 0.3 plus the length bonus), not 0.3 as the claim states
for the all-fields-absent case. -/
theorem C3_counterexample :
    allAbsent (ocrExtract (aChars 51)).extractedData ∧
    (ocrExtract (aChars 51)).confidence = 0.35 ∧
    ¬(ocrExtract (aChars 51)).confidence = 0.3 := by
  have hall : allAbsent (ocrExtract (aChars 51)).extractedData := by decide
  have hlen : (ocrExtract (aChars 51)).text.length = 51 := by decide
  have key : (ocrExtract (aChars 51)).confidence = 0.35 := by
    rw [confidence_formula]
    have hf : fieldScore (ocrExtract (aChars 51)).extractedData = 0 := by
      obtain ⟨h1, h2, h3, h4, h5, h6⟩ := hall
      simp [fieldScore, h1, h2, h3, h4, h5, h6]
    have hl : lengthScore (ocrExtract (aChars 51)).text = 0.05 := by
      norm_num [lengthScore, hlen]
    rw [hf, hl]
    norm_num [min_def]
  refine ⟨hall, key, ?_⟩
  rw [key]
  norm_num

/-- Amended C3: the extractor is total (it is a Lean function); when no
structured data is found the confidence is 0.3 plus the length-quality
bonuses; for input that is empty after normalization all fields are absent and
the confidence is exactly 0.3. -/
theorem C3_amended_no_data_confidence :
    (∀ raw : String, allAbsent (ocrExtract raw).extractedData →
      (ocrExtract raw).confidence = 0.3 + lengthScore (ocrExtract raw).text) ∧
    ((ocrExtract "").extractedData =
      { company := none, patternNumber := none, patternName := none,
        sizeRange := none, fabricType := none, difficulty := none } ∧
     (ocrExtract "").confidence = 0.3) := by
  constructor
  · intro raw h
    rw [confidence_formula raw]
    obtain ⟨h1, h2, h3, h4, h5, h6⟩ := h
    have hf : fieldScore (ocrExtract raw).extractedData = 0 := by
      simp [fieldScore, h1, h2, h3, h4, h5, h6]
    have hb := lengthScore_bounds (ocrExtract raw).text
    rw [hf, add_zero, min_eq_right (by linarith [hb.1, hb.2])]
  · have hd : (ocrExtract "").extractedData =
        { company := none, patternNumber := none, patternName := none,
          sizeRange := none, fabricType := none, difficulty := none } := by
      decide
    refine ⟨hd, ?_⟩
    rw [confidence_formula]
    have hf : fieldScore (ocrExtract "").extractedData = 0 := by
      rw [hd]
      simp [fieldScore]
    have hlen : (ocrExtract "").text.length = 0 := by decide
    have hl : lengthScore (ocrExtract "").text = 0 := by
      norm_num [lengthScore, hlen]
    rw [hf, hl]
    norm_num [min_def]

/-- Witness for amended C3: applied to the empty input. -/
theorem C3_amended_no_data_confidence_witness :
    (ocrExtract "").confidence = 0.3 + lengthScore (ocrExtract "").text :=
  C3_amended_no_data_confidence.1 "" (by decide)

/-- Counterexample to C4: on this input the first shape yielding a match is
the third (labelled) one, whose stripped first match `A12345B` has 7
characters, so by the claim the field should be absent — but the code falls
through to the fourth shape and returns `C678D`. -/
theorem C4_counterexample :
    firstMatchStr (PATTERN_NUMBER_SHAPES.getD 0 RE.eps) pnInput = none ∧
    firstMatchStr (PATTERN_NUMBER_SHAPES.getD 1 RE.eps) pnInput = none ∧
    firstMatchStr (PATTERN_NUMBER_SHAPES.getD 2 RE.eps) pnInput =
      some "Pattern # A12345B" ∧
    stripPatternNumberLabels "Pattern # A12345B" = "A12345B" ∧
    ("A12345B" : String).length = 7 ∧
    extractPatternNumber pnInput = some "C678D" := by
  decide

/-- Amended C4: the shapes are tried in priority order and the result is the
first shape whose first match, after label stripping, is 3–6 characters
(a shape whose match fails the check is skipped and later shapes are still
tried); any returned value is 3–6 characters and upper-cased. -/
theorem C4_amended_pattern_number :
    (∀ t : String, extractPatternNumber t = patternNumberSpec t) ∧
    (∀ (t r : String), extractPatternNumber t = some r →
      (3 ≤ r.length ∧ r.length ≤ 6) ∧ ∃ s, r = jsToUpper s) := by
  constructor
  · intro t
    exact patternNumberLoop_eq_findSome PATTERN_NUMBER_SHAPES t
  · intro t r h
    exact patternNumberLoop_some PATTERN_NUMBER_SHAPES t r h

/-- Witness for amended C4: the accepted result on `pnInput`. -/
theorem C4_amended_pattern_number_witness :
    (3 ≤ ("C678D" : String).length ∧ ("C678D" : String).length ≤ 6) ∧
    ∃ s, ("C678D" : String) = jsToUpper s :=
  C4_amended_pattern_number.2 pnInput "C678D" (by decide)

/-- Counterexample to C5: on this input the first matching difficulty pattern
is `Level\s*[1-4]` and its match `Level3` normalizes to none of the four
levels, so by the claim the field should remain absent — but the code falls
through to the `Skill Level` pattern and returns `Beginner`. -/
theorem C5_counterexample :
    firstMatchStr (DIFFICULTY_PATTERNS.getD 0 RE.eps) diffInput = none ∧
    firstMatchStr (DIFFICULTY_PATTERNS.getD 1 RE.eps) diffInput = some "Level3" ∧
    normalizeDifficulty (stripColonLabel "Level3") = none ∧
    extractDifficulty diffInput = some "Beginner" := by
  decide

/-- Amended C5: each matching difficulty pattern's text is normalized by the
case-insensitive substring rules; the first pattern whose match normalizes to
one of the four levels determines the field (a pattern whose match normalizes
to nothing is skipped), and the field is absent only when no matching
pattern's text normalizes; any returned value is one of the four levels. -/
theorem C5_amended_difficulty :
    (∀ t : String, extractDifficulty t = difficultySpec t) ∧
    (∀ (t r : String), extractDifficulty t = some r →
      r = "Beginner" ∨ r = "Intermediate" ∨ r = "Advanced" ∨ r = "Expert") := by
  constructor
  · intro t
    exact difficultyLoop_eq_findSome DIFFICULTY_PATTERNS t
  · intro t r h
    exact difficultyLoop_some DIFFICULTY_PATTERNS t r h

/-- Witness for amended C5: the extracted difficulty on `diffInput`. -/
theorem C5_amended_difficulty_witness :
    ("Beginner" : String) = "Beginner" ∨ ("Beginner" : String) = "Intermediate" ∨
    ("Beginner" : String) = "Advanced" ∨ ("Beginner" : String) = "Expert" :=
  C5_amended_difficulty.2 diffInput "Beginner" (by decide)

/-- Counterexample to C6: on this input the first matching name pattern is the
label pattern, whose cleaned match is `Coat` (4 characters), so by the claim
the field should be absent — but the code falls through to the capital-start
pattern and returns `GREAT BLOUSE Desig`, a span truncated at the letter `n`
(the regex-literal class `[^\\n\\r]` excludes the characters backslash, `n`,
`r`, not line breaks). -/
theorem C6_counterexample :
    extractCompany nameInput = none ∧
    firstMatchStr (NAME_PATTERNS.getD 0 RE.eps) nameInput =
      some "Design: Misses Kids Coat" ∧
    nameClean none "Design: Misses Kids Coat" = "Coat" ∧
    ("Coat" : String).length = 4 ∧
    extractPatternName nameInput (extractCompany nameInput) =
      some "GREAT BLOUSE Desig" := by
  decide

/-- Amended C6: the label pattern and then the capital-start pattern are
tried; each span is a letter followed by 10–50 characters drawn from the class
excluding backslash, `n`, `r` (case-insensitively for the label pattern)
rather than running to a line break; each match is cleaned by stripping the
label, the audience qualifier words, and every occurrence of the extracted
company name; the first pattern whose cleaned match is 5–50 characters
determines the field (a pattern whose cleaned match fails the check is
skipped); any returned value is 5–50 characters. -/
theorem C6_amended_pattern_name :
    (∀ (t : String) (c : Option String),
      extractPatternName t c = patternNameSpec t c) ∧
    (∀ (t : String) (c : Option String) (r : String),
      extractPatternName t c = some r → 5 ≤ r.length ∧ r.length ≤ 50) := by
  constructor
  · intro t c
    exact patternNameLoop_eq_findSome NAME_PATTERNS t c
  · intro t c r h
    exact patternNameLoop_some NAME_PATTERNS t c r h

/-- Witness for amended C6: the accepted result on `nameInput`. -/
theorem C6_amended_pattern_name_witness :
    5 ≤ ("GREAT BLOUSE Desig" : String).length ∧
    ("GREAT BLOUSE Desig" : String).length ≤ 50 :=
  C6_amended_pattern_name.2 nameInput (extractCompany nameInput)
    "GREAT BLOUSE Desig" (by decide)

/-- Counterexample to C7: when the `Fabric` label occurs without a colon the
appended entry retains the label text (`Fabric good quality stuff`) instead of
being the 5–30 character span following the label (`good quality stuff`),
because the code strips `matches[0]` with `/.*?:\s*/` and without a colon
nothing is stripped. -/
theorem C7_counterexample :
    firstMatchStr (FABRIC_KEYWORDS.getD 0 RE.eps) fabricInput =
      some "Fabric good quality stuff" ∧
    extractFabricType fabricInput = some "Fabric good quality stuff" ∧
    ("Fabric good quality stuff" : String) ≠ "good quality stuff" := by
  decide

/-- Amended C7: fabric extraction collects, in catalog order, every catalog
term occurring as a standalone word, then appends each label pattern's first
match with everything through the last colon-and-following-whitespace removed
(when the label occurs without a colon the label text itself is retained), and
returns the first three entries comma-joined, absent when there are zero hits;
a catalog word occurring only inside another word (such as `Wool` inside
`Woolworth`) is not a hit. -/
theorem C7_amended_fabric_type :
    (∀ t : String, extractFabricType t = fabricTypeSpec t) ∧
    extractFabricType "Woolworth" = none :=
  ⟨extractFabricType_eq_spec, by decide⟩

/-- C8: when no catalog company matches as an exact phrase, company extraction
is the token-overlap fallback: the first catalog entry, in the fixed
catalog-list order, any of whose lower-cased whitespace-split words appears as
a standalone token of the lower-cased whitespace-split input. -/
theorem C8_company_token_fallback :
    ∀ t : String, companyExactLoop PATTERN_COMPANIES t = none →
      extractCompany t = companyTokenFallbackSpec t := by
  intro t h
  unfold extractCompany
  rw [h]
  exact companyFallbackLoop_eq_find PATTERN_COMPANIES (jsSplitWs (jsToLower t))

/-- Witness for C8: `pirates doe` contains words of both
`Patterns for Pirates` (catalog position 8) and `Deer & Doe` (position 13),
neither as an exact phrase; the earlier catalog entry wins. -/
theorem C8_company_token_fallback_witness :
    companyExactLoop PATTERN_COMPANIES "pirates doe" = none ∧
    extractCompany "pirates doe" = companyTokenFallbackSpec "pirates doe" ∧
    extractCompany "pirates doe" = some "Patterns for Pirates" :=
  ⟨by decide, C8_company_token_fallback "pirates doe" (by decide), by decide⟩

/-- C9: the form pre-fill consumer writes an OCR-extracted value into a form
field only if that field is currently empty: every form field holding a
non-empty value before pre-fill is unchanged after it, regardless of the
extraction result. -/
theorem C9_prefill_preserves_nonempty :
    ∀ (form : PatternFormData) (d : ExtractedData),
      (form.patternCompany ≠ "" →
        (processOCRPrefill form d).patternCompany = form.patternCompany) ∧
      (form.patternNumber ≠ "" →
        (processOCRPrefill form d).patternNumber = form.patternNumber) ∧
      (form.patternName ≠ "" →
        (processOCRPrefill form d).patternName = form.patternName) ∧
      (form.sizeRange ≠ "" →
        (processOCRPrefill form d).sizeRange = form.sizeRange) ∧
      (form.fabricType ≠ "" →
        (processOCRPrefill form d).fabricType = form.fabricType) ∧
      (form.difficulty ≠ "" →
        (processOCRPrefill form d).difficulty = form.difficulty) :=
  fun form d =>
    ⟨prefill_keeps_patternCompany form d, prefill_keeps_patternNumber form d,
     prefill_keeps_patternName form d, prefill_keeps_sizeRange form d,
     prefill_keeps_fabricType form d, prefill_keeps_difficulty form d⟩

/-- Witness for C9: a fully populated form is unchanged by a fully populated
extraction result. -/
theorem C9_prefill_preserves_nonempty_witness :
    (processOCRPrefill fullForm richData).patternCompany = fullForm.patternCompany ∧
    (processOCRPrefill fullForm richData).patternNumber = fullForm.patternNumber ∧
    (processOCRPrefill fullForm richData).patternName = fullForm.patternName ∧
    (processOCRPrefill fullForm richData).sizeRange = fullForm.sizeRange ∧
    (processOCRPrefill fullForm richData).fabricType = fullForm.fabricType ∧
    (processOCRPrefill fullForm richData).difficulty = fullForm.difficulty :=
  ⟨(C9_prefill_preserves_nonempty fullForm richData).1 (by decide),
   (C9_prefill_preserves_nonempty fullForm richData).2.1 (by decide),
   (C9_prefill_preserves_nonempty fullForm richData).2.2.1 (by decide),
   (C9_prefill_preserves_nonempty fullForm richData).2.2.2.1 (by decide),
   (C9_prefill_preserves_nonempty fullForm richData).2.2.2.2.1 (by decide),
   (C9_prefill_preserves_nonempty fullForm richData).2.2.2.2.2 (by decide)⟩

/-- C10: the form's difficulty starts as `Beginner` and is reset to
`Beginner`, in every reachable form state it is never the empty string, so the
pre-fill guard requiring an empty difficulty field is always false and the
OCR-extracted difficulty is never applied to the form. -/
theorem C10_difficulty_never_prefilled :
    initialFormData.difficulty = "Beginner" ∧
    (∀ f : PatternFormData, ReachableForm f → f.difficulty ≠ "") ∧
    (∀ f : PatternFormData, ReachableForm f → ∀ d : ExtractedData,
      (processOCRPrefill f d).difficulty = f.difficulty) := by
  refine ⟨rfl, ?_, ?_⟩
  · intro f hf
    rcases reachable_difficulty_mem f hf with h | h | h | h <;> rw [h] <;> decide
  · intro f hf d
    have hne : f.difficulty ≠ "" := by
      rcases reachable_difficulty_mem f hf with h | h | h | h <;> rw [h] <;> decide
    exact prefill_keeps_difficulty f d hne

/-- Witness for C10: the initial form keeps its `Beginner` difficulty even
when the extractor returns `Expert`. -/
theorem C10_difficulty_never_prefilled_witness :
    initialFormData.difficulty ≠ "" ∧
    (processOCRPrefill initialFormData diffOnlyData).difficulty =
      initialFormData.difficulty :=
  ⟨C10_difficulty_never_prefilled.2.1 initialFormData ReachableForm.init,
   C10_difficulty_never_prefilled.2.2 initialFormData ReachableForm.init
     diffOnlyData⟩

end SewingOCR
